import Mathlib

/-!
Verification of the import-guard tool `scripts/check_imports.py`.

The Python program is shallowly embedded: paths are lists of components,
the filesystem / OS surface (path resolution, directory tests, file
existence, recursive globbing, reading + parsing a file) is a record of
functions `PathEnv`, and the `ast` module's node kinds that the guard
distinguishes are an inductive type `PyAst`.
-/

/-- Embedding of the Python AST node kinds that `check_imports.py`
distinguishes.  `importStmt names lineno` is `ast.Import` with its list of
alias names; `importFrom module level lineno` is `ast.ImportFrom`;
`functionDef`, `asyncFunctionDef`, `classDef` are the three definition
node kinds whose subtrees the extractor skips; `pyModule`, `ifStmt`,
`tryStmt`, `forStmt`, `whileStmt` and `other` are node kinds that fall
into the extractor's recursive branch, carrying their child nodes. -/
inductive PyAst where
  | importStmt (names : List String) (lineno : Nat)
  | importFrom (module : Option String) (level : Nat) (lineno : Nat)
  | functionDef (children : List PyAst)
  | asyncFunctionDef (children : List PyAst)
  | classDef (children : List PyAst)
  | pyModule (children : List PyAst)
  | ifStmt (children : List PyAst)
  | tryStmt (children : List PyAst)
  | forStmt (children : List PyAst)
  | whileStmt (children : List PyAst)
  | other (children : List PyAst)

/-- `ast.iter_child_nodes`: the direct children of a node.  Import
statements are modelled without children (their alias children carry
no import statements). -/
def PyAst.children : PyAst → List PyAst
  | .importStmt _ _ => []
  | .importFrom _ _ _ => []
  | .functionDef cs => cs
  | .asyncFunctionDef cs => cs
  | .classDef cs => cs
  | .pyModule cs => cs
  | .ifStmt cs => cs
  | .tryStmt cs => cs
  | .forStmt cs => cs
  | .whileStmt cs => cs
  | .other cs => cs

/-- `canonicalize_module_name`: the portion of a dotted module path before
the first dot (`name.split(".")[0]`). -/
def canonicalize_module_name (name : String) : String :=
  String.mk (name.toList.takeWhile (· ≠ '.'))

mutual

/-- One iteration of the `for child in ast.iter_child_nodes(node)` loop of
`extract_top_level_imports`: what the child contributes to the yielded
sequence. -/
def extract_from_child : PyAst → List (String × Nat)
  | .importStmt names lineno =>
      match names with
      | [] => []
      | first :: _ =>
          if first = "" then [] else [(canonicalize_module_name first, lineno)]
  | .importFrom module level lineno =>
      if level > 0 then []
      else
        match module with
        | none => []
        | some m => if m = "" then [] else [(canonicalize_module_name m, lineno)]
  | .functionDef _ => []
  | .asyncFunctionDef _ => []
  | .classDef _ => []
  | .pyModule cs => extract_from_children cs
  | .ifStmt cs => extract_from_children cs
  | .tryStmt cs => extract_from_children cs
  | .forStmt cs => extract_from_children cs
  | .whileStmt cs => extract_from_children cs
  | .other cs => extract_from_children cs

/-- The loop of `extract_top_level_imports` over a list of child nodes. -/
def extract_from_children : List PyAst → List (String × Nat)
  | [] => []
  | c :: cs => extract_from_child c ++ extract_from_children cs

end

/-- `extract_top_level_imports(node)`: yield `(module, line)` pairs for the
top-level import statements reachable from `node`. -/
def extract_top_level_imports (node : PyAst) : List (String × Nat) :=
  extract_from_children node.children

/-! ## Paths and the filesystem surface

A filesystem path is its list of components.  `PathEnv` packages the OS
facilities the script uses: `Path.resolve`, `Path.is_dir`, `Path.is_file`,
`Path.exists`, `Path.rglob("*.py")`, and "open the file and `ast.parse`
it" (which either returns a tree or raises `SyntaxError` with a message).
-/

/-- Render a path for diagnostic messages (`str(path)`). -/
def pathToString (p : List String) : String :=
  String.intercalate "/" p

/-- `path.parents`: the strict ancestor prefixes of a path, nearest
first, as in `pathlib`. -/
def pathParents (p : List String) : List (List String) :=
  (List.range p.length).reverse.map (fun k => p.take k)

/-- The OS / filesystem facilities used by the script. -/
structure PathEnv where
  resolve : List String → List String
  isDir : List String → Bool
  isFile : List String → Bool
  fsExists : List String → Bool
  rglobPy : List String → List (List String)
  parseFile : List String → Except String PyAst

/-- `dict` assignment `d[k] = v`: overwrite the value at an existing key
in place, otherwise append the binding. -/
def dictInsert (d : List (List String × List String)) (k : List String)
    (v : List String) : List (List String × List String) :=
  if d.any (fun p => p.1 == k) then
    d.map (fun p => if p.1 == k then (k, v) else p)
  else d ++ [(k, v)]

/-- `ImportGuardConfig`: the two-tier allow-list.  `file_allowlist` is an
insertion-ordered dict from resolved path to canonical module names. -/
structure ImportGuardConfig where
  module_allowlist : List String
  file_allowlist : List (List String × List String)

/-- `ImportGuardConfig.__init__`: canonicalize the module allow-list and
resolve + canonicalize each file allow-list entry. -/
def ImportGuardConfig.init (env : PathEnv) (module_allowlist : List String)
    (file_allowlist : List (List String × List String)) : ImportGuardConfig where
  module_allowlist := module_allowlist.map canonicalize_module_name
  file_allowlist :=
    file_allowlist.foldl
      (fun acc entry =>
        dictInsert acc (env.resolve entry.1) (entry.2.map canonicalize_module_name))
      []

/-- The decoded content of a configuration JSON document: the `modules`
array and the `files` object. -/
structure ConfigData where
  modules : List String
  files : List (List String × List String)

/-- `ImportGuardConfig.from_path`: build the configuration from the JSON
file when it exists, otherwise `cls()` with both lists empty.
`pathExists` models `path.exists()` and `data` the decoded JSON. -/
def ImportGuardConfig.from_path (env : PathEnv) (pathExists : Bool)
    (data : ConfigData) : ImportGuardConfig :=
  if pathExists then .init env data.modules data.files
  else .init env [] []

/-- The `for path, modules in self.file_allowlist.items()` loop of
`is_allowed`, with its two early returns. -/
def is_allowed_loop (env : PathEnv) (canonical : String) (resolved : List String) :
    List (List String × List String) → Bool
  | [] => false
  | (path, modules) :: rest =>
      if path == resolved then modules.contains canonical
      else if env.isDir path && (pathParents resolved).contains path then
        modules.contains canonical
      else is_allowed_loop env canonical resolved rest

/-- `ImportGuardConfig.is_allowed(module, file_path)`. -/
def ImportGuardConfig.is_allowed (config : ImportGuardConfig) (env : PathEnv)
    (module : String) (file_path : List String) : Bool :=
  let canonical := canonicalize_module_name module
  if config.module_allowlist.contains canonical then true
  else is_allowed_loop env canonical (env.resolve file_path) config.file_allowlist

/-- `PurePath.suffix`: the extension of the final component, empty unless
the last dot is at an interior position of the name. -/
def fileSuffix (name : String) : String :=
  let cs := name.toList
  match cs.reverse.findIdx? (· == '.') with
  | none => ""
  | some j =>
      let i := cs.length - 1 - j
      if 0 < i && i < cs.length - 1 then String.mk (cs.drop i) else ""

/-- `path.suffix` for a path given by components. -/
def pathSuffix (p : List String) : String :=
  fileSuffix ((p.getLast?).getD "")

/-- `part.startswith(".")`: whether a path component begins with a dot. -/
def startsWithDot (part : String) : Bool :=
  match part.toList with
  | [] => false
  | c :: _ => c == '.'

/-- `discover_python_files(paths)`: keep a direct argument when it is a
file with the `.py` suffix; walk a directory argument with
`rglob("*.py")`, dropping any candidate with a hidden (dot-prefixed)
component. -/
def discover_python_files (env : PathEnv) (paths : List (List String)) :
    List (List String) :=
  paths.foldl
    (fun python_files path =>
      if env.isFile path && pathSuffix path == ".py" then python_files ++ [path]
      else if env.isDir path then
        python_files ++
          (env.rglobPy path).filter
            (fun candidate => !(candidate.any startsWithDot))
      else python_files)
    []

/-- `find_asset_root(path)`: the first of `[path] + parents` that contains
a `metadata.yaml`. -/
def find_asset_root (env : PathEnv) (path : List String) : Option (List String) :=
  (path :: pathParents path).find?
    (fun parent => env.fsExists (parent ++ ["metadata.yaml"]))

/-- `DEFAULT_REQUIREMENT_FILES`. -/
def DEFAULT_REQUIREMENT_FILES : List String :=
  ["dev-requirements.txt", "test-requirements.txt"]

/-- `ensure_dependency_files(asset_root)`: `none` when a dev/test
requirements file exists, otherwise the warning message. -/
def ensure_dependency_files (env : PathEnv) (asset_root : List String) :
    Option String :=
  if DEFAULT_REQUIREMENT_FILES.any
      (fun filename => env.fsExists (asset_root ++ [filename])) then none
  else
    some (pathToString asset_root ++
      " is missing a dev/test requirements file (dev-requirements.txt, test-requirements.txt)")

/-! ## The orchestrator `check_imports` and `main`

`build_stdlib_index` walks the host installation's standard-library tree;
its result is modelled as the parameter `stdlib` threaded through the
orchestrator. -/

/-- The violation message appended for a disallowed top-level import. -/
def violation_line (file_path : List String) (lineno : Nat)
    (module_name : String) : String :=
  pathToString file_path ++ ":" ++ toString lineno ++
    " imports non-stdlib module '" ++ module_name ++ "' at top level"

/-- The violation-class message appended when a file fails to parse. -/
def parse_failure_line (file_path : List String) (msg : String) : String :=
  pathToString file_path ++ ": failed to parse (" ++ msg ++ ")"

/-- `set.add`: insert a string into a set of strings kept as a
duplicate-free list in insertion order. -/
def setAdd (s : List String) (w : String) : List String :=
  if s.contains w then s else s ++ [w]

/-- The body of the `for module_name, lineno in extract_top_level_imports`
loop: update the `(violations, dependency_warnings)` state for one
extracted import of `file_path`. -/
def process_import (env : PathEnv) (stdlib : List String)
    (config : ImportGuardConfig) (file_path : List String)
    (state : List String × List String) (imp : String × Nat) :
    List String × List String :=
  if stdlib.contains imp.1 then state
  else if config.is_allowed env imp.1 file_path then
    match find_asset_root env file_path.dropLast with
    | none => state
    | some asset_root =>
        match ensure_dependency_files env asset_root with
        | none => state
        | some warning => (state.1, setAdd state.2 warning)
  else (state.1 ++ [violation_line file_path imp.2 imp.1], state.2)

/-- The body of the `for file_path in files` loop: parse the file (a
failure is recorded and the file skipped) and fold `process_import` over
its extracted imports. -/
def process_file (env : PathEnv) (stdlib : List String)
    (config : ImportGuardConfig) (state : List String × List String)
    (file_path : List String) : List String × List String :=
  match env.parseFile file_path with
  | .error msg => (state.1 ++ [parse_failure_line file_path msg], state.2)
  | .ok tree =>
      (extract_top_level_imports tree).foldl
        (process_import env stdlib config file_path) state

/-- `sorted`: sort a list of strings. -/
def sortStrings (l : List String) : List String :=
  l.insertionSort (· ≤ ·)

/-- The observable outcome of `check_imports`: the violation list in
discovery order, the dependency warnings as printed (sorted, one per
distinct message), and the return code. -/
structure CheckResult where
  violations : List String
  warnings : List String
  exitCode : Nat

/-- `check_imports(files, config)`. -/
def check_imports (env : PathEnv) (stdlib : List String)
    (files : List (List String)) (config : ImportGuardConfig) : CheckResult :=
  let state := files.foldl (process_file env stdlib config) ([], [])
  { violations := state.1
    warnings := sortStrings state.2
    exitCode := if state.1.isEmpty then 0 else 1 }

/-- The warning lines printed on the error stream, with their prefix. -/
def warning_lines (r : CheckResult) : List String :=
  r.warnings.map (fun w => "WARNING: " ++ w)

namespace CheckImportsScript

/-- `main()`: load the configuration, discover the Python files, return
`0` when none were found, otherwise run `check_imports`. -/
def main (env : PathEnv) (stdlib : List String) (configPathExists : Bool)
    (configData : ConfigData) (paths : List (List String)) : Nat :=
  let config := ImportGuardConfig.from_path env configPathExists configData
  let python_files := discover_python_files env paths
  if python_files.isEmpty then 0
  else (check_imports env stdlib python_files config).exitCode

end CheckImportsScript

/-! ## Specification-side characterizations and proof auxiliaries -/

/-- A path entry structurally matches a resolved file path when it equals
it or is an ancestor directory of it. -/
def structurally_matches (env : PathEnv) (resolved : List String)
    (entry : List String × List String) : Bool :=
  entry.1 == resolved ||
    (env.isDir entry.1 && (pathParents resolved).contains entry.1)

/-- Modelled from the spec's words for `isAllowed`: global module set
first; otherwise the first structurally matching path entry governs and
the result is membership of the module in that entry's set, `false` when
no entry matches. -/
def is_allowed_spec (env : PathEnv) (config : ImportGuardConfig)
    (module : String) (file_path : List String) : Bool :=
  let canonical := canonicalize_module_name module
  if config.module_allowlist.contains canonical then true
  else
    match config.file_allowlist.find?
        (structurally_matches env (env.resolve file_path)) with
    | some entry => entry.2.contains canonical
    | none => false

/-- The violation an extracted import of `file_path` contributes, if any. -/
def import_violation (env : PathEnv) (stdlib : List String)
    (config : ImportGuardConfig) (file_path : List String)
    (imp : String × Nat) : Option String :=
  if stdlib.contains imp.1 then none
  else if config.is_allowed env imp.1 file_path then none
  else some (violation_line file_path imp.2 imp.1)

/-- The dependency warning an extracted import of `file_path` contributes,
if any. -/
def import_warning (env : PathEnv) (stdlib : List String)
    (config : ImportGuardConfig) (file_path : List String)
    (imp : String × Nat) : Option String :=
  if stdlib.contains imp.1 then none
  else if config.is_allowed env imp.1 file_path then
    match find_asset_root env file_path.dropLast with
    | none => none
    | some asset_root => ensure_dependency_files env asset_root
  else none

/-- The violation entries one file contributes to a run, in order. -/
def file_violations (env : PathEnv) (stdlib : List String)
    (config : ImportGuardConfig) (file_path : List String) : List String :=
  match env.parseFile file_path with
  | .error msg => [parse_failure_line file_path msg]
  | .ok tree =>
      (extract_top_level_imports tree).filterMap
        (import_violation env stdlib config file_path)

/-- The dependency warnings one file generates in a run, in order, before
set-deduplication. -/
def file_warnings (env : PathEnv) (stdlib : List String)
    (config : ImportGuardConfig) (file_path : List String) : List String :=
  match env.parseFile file_path with
  | .error _ => []
  | .ok tree =>
      (extract_top_level_imports tree).filterMap
        (import_warning env stdlib config file_path)

mutual

/-- Empty the bodies of every function, coroutine and class definition in
a tree, leaving everything else intact. -/
def scrubDefs : PyAst → PyAst
  | .importStmt names lineno => .importStmt names lineno
  | .importFrom module level lineno => .importFrom module level lineno
  | .functionDef _ => .functionDef []
  | .asyncFunctionDef _ => .asyncFunctionDef []
  | .classDef _ => .classDef []
  | .pyModule cs => .pyModule (scrubDefsList cs)
  | .ifStmt cs => .ifStmt (scrubDefsList cs)
  | .tryStmt cs => .tryStmt (scrubDefsList cs)
  | .forStmt cs => .forStmt (scrubDefsList cs)
  | .whileStmt cs => .whileStmt (scrubDefsList cs)
  | .other cs => .other (scrubDefsList cs)

/-- `scrubDefs` mapped over a list of children. -/
def scrubDefsList : List PyAst → List PyAst
  | [] => []
  | c :: cs => scrubDefs c :: scrubDefsList cs

end

/-- Whether a node is a relative import (`from . import ...`, any depth). -/
def isRelativeImport : PyAst → Bool
  | .importFrom _ level _ => level > 0
  | _ => false

mutual

/-- Remove every relative import node from a tree, at any depth. -/
def dropRelatives : PyAst → PyAst
  | .importStmt names lineno => .importStmt names lineno
  | .importFrom module level lineno => .importFrom module level lineno
  | .functionDef cs => .functionDef (dropRelativesList cs)
  | .asyncFunctionDef cs => .asyncFunctionDef (dropRelativesList cs)
  | .classDef cs => .classDef (dropRelativesList cs)
  | .pyModule cs => .pyModule (dropRelativesList cs)
  | .ifStmt cs => .ifStmt (dropRelativesList cs)
  | .tryStmt cs => .tryStmt (dropRelativesList cs)
  | .forStmt cs => .forStmt (dropRelativesList cs)
  | .whileStmt cs => .whileStmt (dropRelativesList cs)
  | .other cs => .other (dropRelativesList cs)

/-- `dropRelatives` over a list of children, with any relative
imports among them removed. -/
def dropRelativesList : List PyAst → List PyAst
  | [] => []
  | c :: cs =>
      if isRelativeImport c then dropRelativesList cs
      else dropRelatives c :: dropRelativesList cs

end

/-! ## Concrete environments and trees used to evaluate the model -/

/-- A tree for a file whose first line is `import os`, second line is
`import kfp`, with `import heavy_lib` inside a function body. -/
def kfpTree : PyAst :=
  .pyModule [.importStmt ["os"] 1,
             .importStmt ["kfp"] 2,
             .functionDef [.importStmt ["heavy_lib"] 4]]

/-- An environment where every path is an unparsable source file. -/
def envParseFail : PathEnv where
  resolve := fun p => p
  isDir := fun _ => false
  isFile := fun _ => true
  fsExists := fun _ => false
  rglobPy := fun _ => []
  parseFile := fun _ => .error "invalid syntax"

/-- An environment where every path is a file parsing to `kfpTree`. -/
def envKfp : PathEnv where
  resolve := fun p => p
  isDir := fun _ => false
  isFile := fun _ => true
  fsExists := fun _ => false
  rglobPy := fun _ => []
  parseFile := fun _ => .ok kfpTree

/-- An environment where every file parses to a lone `import numpy`, and
`pkg/metadata.yaml` exists but no requirements file does. -/
def envWarn : PathEnv where
  resolve := fun p => p
  isDir := fun _ => false
  isFile := fun _ => true
  fsExists := fun p => p == ["pkg", "metadata.yaml"]
  rglobPy := fun _ => []
  parseFile := fun _ => .ok (.pyModule [.importStmt ["numpy"] 1])

/-- An environment for file discovery: `.hidden/x.py` is an existing
file, `d` is a directory whose recursive glob finds `d/a.py` and
`d/.cache/b.py`. -/
def envDisc : PathEnv where
  resolve := fun p => p
  isDir := fun p => p == ["d"]
  isFile := fun p => p == [".hidden", "x.py"]
  fsExists := fun _ => false
  rglobPy := fun p => if p == ["d"] then [["d", "a.py"], ["d", ".cache", "b.py"]] else []
  parseFile := fun _ => .error "invalid syntax"

/-- The empty allow-list configuration. -/
def emptyConfig : ImportGuardConfig where
  module_allowlist := []
  file_allowlist := []

/-! ## Lemmas about the extractor -/

theorem extract_from_children_append (xs ys : List PyAst) :
    extract_from_children (xs ++ ys) =
      extract_from_children xs ++ extract_from_children ys := by
  induction xs with
  | nil => rfl
  | cons c cs ih => simp [extract_from_children, ih]

mutual

theorem extract_from_child_scrubDefs :
    (t : PyAst) → extract_from_child (scrubDefs t) = extract_from_child t
  | .importStmt _ _ => rfl
  | .importFrom _ _ _ => rfl
  | .functionDef _ => rfl
  | .asyncFunctionDef _ => rfl
  | .classDef _ => rfl
  | .pyModule cs => by
      simp [scrubDefs, extract_from_child, extract_from_children_scrubDefsList cs]
  | .ifStmt cs => by
      simp [scrubDefs, extract_from_child, extract_from_children_scrubDefsList cs]
  | .tryStmt cs => by
      simp [scrubDefs, extract_from_child, extract_from_children_scrubDefsList cs]
  | .forStmt cs => by
      simp [scrubDefs, extract_from_child, extract_from_children_scrubDefsList cs]
  | .whileStmt cs => by
      simp [scrubDefs, extract_from_child, extract_from_children_scrubDefsList cs]
  | .other cs => by
      simp [scrubDefs, extract_from_child, extract_from_children_scrubDefsList cs]

theorem extract_from_children_scrubDefsList :
    (cs : List PyAst) →
      extract_from_children (scrubDefsList cs) = extract_from_children cs
  | [] => rfl
  | c :: cs => by
      simp [scrubDefsList, extract_from_children,
        extract_from_child_scrubDefs c, extract_from_children_scrubDefsList cs]

end

theorem extract_from_child_of_relative (t : PyAst)
    (h : isRelativeImport t = true) : extract_from_child t = [] := by
  cases t with
  | importFrom module level lineno =>
      simp only [isRelativeImport, decide_eq_true_eq] at h
      simp [extract_from_child, h]
  | _ => simp [isRelativeImport] at h

mutual

theorem extract_from_child_dropRelatives :
    (t : PyAst) → extract_from_child (dropRelatives t) = extract_from_child t
  | .importStmt _ _ => rfl
  | .importFrom _ _ _ => rfl
  | .functionDef _ => rfl
  | .asyncFunctionDef _ => rfl
  | .classDef _ => rfl
  | .pyModule cs => by
      simp [dropRelatives, extract_from_child, extract_from_children_dropRelativesList cs]
  | .ifStmt cs => by
      simp [dropRelatives, extract_from_child, extract_from_children_dropRelativesList cs]
  | .tryStmt cs => by
      simp [dropRelatives, extract_from_child, extract_from_children_dropRelativesList cs]
  | .forStmt cs => by
      simp [dropRelatives, extract_from_child, extract_from_children_dropRelativesList cs]
  | .whileStmt cs => by
      simp [dropRelatives, extract_from_child, extract_from_children_dropRelativesList cs]
  | .other cs => by
      simp [dropRelatives, extract_from_child, extract_from_children_dropRelativesList cs]

theorem extract_from_children_dropRelativesList :
    (cs : List PyAst) →
      extract_from_children (dropRelativesList cs) = extract_from_children cs
  | [] => rfl
  | c :: cs => by
      rw [dropRelativesList]
      cases h : isRelativeImport c with
      | true =>
          rw [if_pos rfl]
          rw [extract_from_children_dropRelativesList cs]
          rw [extract_from_children, extract_from_child_of_relative c h]
          rfl
      | false =>
          rw [if_neg (by simp)]
          rw [extract_from_children, extract_from_children,
            extract_from_child_dropRelatives c,
            extract_from_children_dropRelativesList cs]

end

/-- C1: `extract_top_level_imports` never yields an import occurring
inside a function, coroutine, or class definition body — such a child's
entire subtree contributes nothing, and emptying every definition body
anywhere in the tree leaves the result unchanged — while an `if`, `try`,
`for`, `while` or any other node kind is recursed into, so the imports
under it are still yielded. -/
theorem extract_skips_def_bodies_recurses_others :
    (∀ pre post : List PyAst, ∀ c : PyAst,
      extract_top_level_imports (.pyModule (pre ++ .functionDef [c] :: post)) =
        extract_top_level_imports (.pyModule (pre ++ post)) ∧
      extract_top_level_imports (.pyModule (pre ++ .asyncFunctionDef [c] :: post)) =
        extract_top_level_imports (.pyModule (pre ++ post)) ∧
      extract_top_level_imports (.pyModule (pre ++ .classDef [c] :: post)) =
        extract_top_level_imports (.pyModule (pre ++ post)) ∧
      extract_top_level_imports (.pyModule (pre ++ .ifStmt [c] :: post)) =
        extract_top_level_imports (.pyModule (pre ++ c :: post)) ∧
      extract_top_level_imports (.pyModule (pre ++ .tryStmt [c] :: post)) =
        extract_top_level_imports (.pyModule (pre ++ c :: post)) ∧
      extract_top_level_imports (.pyModule (pre ++ .forStmt [c] :: post)) =
        extract_top_level_imports (.pyModule (pre ++ c :: post)) ∧
      extract_top_level_imports (.pyModule (pre ++ .whileStmt [c] :: post)) =
        extract_top_level_imports (.pyModule (pre ++ c :: post)) ∧
      extract_top_level_imports (.pyModule (pre ++ .other [c] :: post)) =
        extract_top_level_imports (.pyModule (pre ++ c :: post))) ∧
    (∀ cs : List PyAst,
      extract_top_level_imports (.pyModule (scrubDefsList cs)) =
        extract_top_level_imports (.pyModule cs)) := by
  constructor
  · intro pre post c
    refine ⟨?_, ?_, ?_, ?_, ?_, ?_, ?_, ?_⟩ <;>
      simp [extract_top_level_imports, PyAst.children,
        extract_from_children_append, extract_from_children, extract_from_child]
  · intro cs
    simp [extract_top_level_imports, PyAst.children,
      extract_from_children_scrubDefsList]

/-- C3: a relative import (a from-import with level at least 1) is never
yielded: it contributes nothing on its own, and removing every
relative import anywhere in a tree leaves the extraction result
unchanged. -/
theorem relative_imports_never_extracted :
    (∀ (module : Option String) (level lineno : Nat), 1 ≤ level →
        extract_from_child (.importFrom module level lineno) = []) ∧
    (∀ t : PyAst,
        extract_top_level_imports (dropRelatives t) =
          extract_top_level_imports t) := by
  constructor
  · intro module level lineno h
    have hpos : level > 0 := h
    simp [extract_from_child, hpos]
  · intro t
    cases t <;>
      simp [dropRelatives, extract_top_level_imports, PyAst.children,
        extract_from_children_dropRelativesList]

theorem relative_imports_never_extracted_witness :
    1 ≤ 2 ∧ extract_from_child (.importFrom (some "pkg.sub") 2 5) = [] :=
  ⟨by decide, relative_imports_never_extracted.1 (some "pkg.sub") 2 5 (by decide)⟩

/-- C4: a plain import statement naming several modules yields exactly one
declaration, for the canonicalized first name only; the subsequent names
contribute nothing. -/
theorem multi_name_import_first_only (first : String) (rest : List String)
    (lineno : Nat) (h : first ≠ "") :
    extract_top_level_imports (.pyModule [.importStmt (first :: rest) lineno]) =
      [(canonicalize_module_name first, lineno)] := by
  simp [extract_top_level_imports, PyAst.children, extract_from_children,
    extract_from_child, h]

theorem multi_name_import_first_only_witness :
    "numpy" ≠ "" ∧
    extract_top_level_imports
        (.pyModule [.importStmt ["numpy", "pandas", "scipy"] 3]) =
      [("numpy", 3)] :=
  ⟨by decide, multi_name_import_first_only "numpy" ["pandas", "scipy"] 3 (by decide)⟩

/-! ## The allow-list -/

theorem is_allowed_loop_eq_find (env : PathEnv) (canonical : String)
    (resolved : List String) (l : List (List String × List String)) :
    is_allowed_loop env canonical resolved l =
      match l.find? (structurally_matches env resolved) with
      | some entry => entry.2.contains canonical
      | none => false := by
  induction l with
  | nil => rfl
  | cons hd tl ih =>
      obtain ⟨p, m⟩ := hd
      by_cases h1 : p = resolved
      · simp [is_allowed_loop, List.find?, structurally_matches, h1]
      · have h1f : (p == resolved) = false := beq_eq_false_iff_ne.mpr h1
        by_cases h2 : env.isDir p = true
        · by_cases h3 : p ∈ pathParents resolved
          · simp [is_allowed_loop, List.find?, structurally_matches, h1, h1f, h2, h3]
          · simp [is_allowed_loop, List.find?, structurally_matches, h1, h1f, h2,
              h3, ih]
        · simp [is_allowed_loop, List.find?, structurally_matches, h1, h1f, h2, ih]

/-- C2: `is_allowed` returns true when the canonicalized module is in the
global allow-list, and otherwise the first configured path entry that
structurally matches the resolved file path (exact equality or
ancestor-directory containment) governs: the result is membership of the
module in that entry's set, `false` when no entry matches. -/
theorem is_allowed_first_match_governs (env : PathEnv)
    (config : ImportGuardConfig) (module : String) (file_path : List String) :
    config.is_allowed env module file_path =
      is_allowed_spec env config module file_path := by
  unfold ImportGuardConfig.is_allowed is_allowed_spec
  by_cases h : canonicalize_module_name module ∈ config.module_allowlist
  · simp [h]
  · simp [h, is_allowed_loop_eq_find]

/-- C8: loading the configuration from a nonexistent path gives the
empty, permit-nothing configuration: both allow-lists are empty and
`is_allowed` returns false for every module and file path. -/
theorem missing_config_permits_nothing (env : PathEnv) (data : ConfigData)
    (module : String) (file_path : List String) :
    (ImportGuardConfig.from_path env false data).module_allowlist = [] ∧
    (ImportGuardConfig.from_path env false data).file_allowlist = [] ∧
    (ImportGuardConfig.from_path env false data).is_allowed env module file_path
      = false :=
  ⟨rfl, rfl, rfl⟩

/-! ## Lemmas about the orchestrator's fold -/

theorem process_import_fst (env : PathEnv) (stdlib : List String)
    (config : ImportGuardConfig) (fp : List String)
    (state : List String × List String) (imp : String × Nat) :
    (process_import env stdlib config fp state imp).1 =
      state.1 ++ (import_violation env stdlib config fp imp).toList := by
  unfold process_import import_violation
  by_cases h1 : imp.1 ∈ stdlib
  · simp [h1]
  · by_cases h2 : config.is_allowed env imp.1 fp = true
    · cases h3 : find_asset_root env fp.dropLast with
      | none => simp [h1, h2, h3]
      | some root =>
          cases h4 : ensure_dependency_files env root <;> simp [h1, h2, h3, h4]
    · simp [h1, h2]

theorem process_import_snd (env : PathEnv) (stdlib : List String)
    (config : ImportGuardConfig) (fp : List String)
    (state : List String × List String) (imp : String × Nat) :
    (process_import env stdlib config fp state imp).2 =
      ((import_warning env stdlib config fp imp).toList).foldl setAdd state.2 := by
  unfold process_import import_warning
  by_cases h1 : imp.1 ∈ stdlib
  · simp [h1]
  · by_cases h2 : config.is_allowed env imp.1 fp = true
    · cases h3 : find_asset_root env fp.dropLast with
      | none => simp [h1, h2, h3]
      | some root =>
          cases h4 : ensure_dependency_files env root <;> simp [h1, h2, h3, h4, setAdd]
    · simp [h1, h2]

theorem foldl_process_import_fst (env : PathEnv) (stdlib : List String)
    (config : ImportGuardConfig) (fp : List String) :
    ∀ (imps : List (String × Nat)) (state : List String × List String),
      (imps.foldl (process_import env stdlib config fp) state).1 =
        state.1 ++ imps.filterMap (import_violation env stdlib config fp) := by
  intro imps
  induction imps with
  | nil => intro state; simp
  | cons i is ih =>
      intro state
      rw [List.foldl_cons, ih, process_import_fst, List.filterMap_cons]
      cases import_violation env stdlib config fp i <;> simp

theorem foldl_process_import_snd (env : PathEnv) (stdlib : List String)
    (config : ImportGuardConfig) (fp : List String) :
    ∀ (imps : List (String × Nat)) (state : List String × List String),
      (imps.foldl (process_import env stdlib config fp) state).2 =
        (imps.filterMap (import_warning env stdlib config fp)).foldl
          setAdd state.2 := by
  intro imps
  induction imps with
  | nil => intro state; simp
  | cons i is ih =>
      intro state
      rw [List.foldl_cons, ih, process_import_snd, List.filterMap_cons]
      cases import_warning env stdlib config fp i <;> simp

theorem process_file_fst (env : PathEnv) (stdlib : List String)
    (config : ImportGuardConfig) (state : List String × List String)
    (fp : List String) :
    (process_file env stdlib config state fp).1 =
      state.1 ++ file_violations env stdlib config fp := by
  unfold process_file file_violations
  cases env.parseFile fp with
  | error msg => simp
  | ok tree => simp [foldl_process_import_fst]

theorem process_file_snd (env : PathEnv) (stdlib : List String)
    (config : ImportGuardConfig) (state : List String × List String)
    (fp : List String) :
    (process_file env stdlib config state fp).2 =
      (file_warnings env stdlib config fp).foldl setAdd state.2 := by
  unfold process_file file_warnings
  cases env.parseFile fp with
  | error msg => simp
  | ok tree => simp [foldl_process_import_snd]

theorem foldl_process_file_fst (env : PathEnv) (stdlib : List String)
    (config : ImportGuardConfig) :
    ∀ (files : List (List String)) (state : List String × List String),
      (files.foldl (process_file env stdlib config) state).1 =
        state.1 ++ files.flatMap (file_violations env stdlib config) := by
  intro files
  induction files with
  | nil => intro state; simp
  | cons f fs ih =>
      intro state
      rw [List.foldl_cons, ih, process_file_fst]
      simp

theorem foldl_process_file_snd (env : PathEnv) (stdlib : List String)
    (config : ImportGuardConfig) :
    ∀ (files : List (List String)) (state : List String × List String),
      (files.foldl (process_file env stdlib config) state).2 =
        (files.flatMap (file_warnings env stdlib config)).foldl
          setAdd state.2 := by
  intro files
  induction files with
  | nil => intro state; simp
  | cons f fs ih =>
      intro state
      rw [List.foldl_cons, ih, process_file_snd]
      simp [List.foldl_append]

theorem check_imports_violations (env : PathEnv) (stdlib : List String)
    (files : List (List String)) (config : ImportGuardConfig) :
    (check_imports env stdlib files config).violations =
      files.flatMap (file_violations env stdlib config) := by
  unfold check_imports
  simp [foldl_process_file_fst]

theorem check_imports_warnings (env : PathEnv) (stdlib : List String)
    (files : List (List String)) (config : ImportGuardConfig) :
    (check_imports env stdlib files config).warnings =
      sortStrings
        ((files.flatMap (file_warnings env stdlib config)).foldl setAdd []) := by
  unfold check_imports
  simp [foldl_process_file_snd]

theorem check_imports_exitCode (env : PathEnv) (stdlib : List String)
    (files : List (List String)) (config : ImportGuardConfig) :
    (check_imports env stdlib files config).exitCode =
      if (check_imports env stdlib files config).violations.isEmpty then 0
      else 1 := by
  unfold check_imports
  simp

/-! ## Set and sorting lemmas for the warning pipeline -/

theorem mem_setAdd (s : List String) (w x : String) :
    x ∈ setAdd s w ↔ x ∈ s ∨ x = w := by
  unfold setAdd
  by_cases h : w ∈ s
  · rw [if_pos (List.elem_iff.mpr h)]
    constructor
    · exact Or.inl
    · rintro (hx | rfl)
      · exact hx
      · exact h
  · have hc : ¬s.contains w = true := fun hcon => h (List.elem_iff.mp hcon)
    rw [if_neg hc]
    simp

theorem nodup_setAdd (s : List String) (w : String) (h : s.Nodup) :
    (setAdd s w).Nodup := by
  unfold setAdd
  by_cases hw : w ∈ s
  · rwa [if_pos (List.elem_iff.mpr hw)]
  · have hc : ¬s.contains w = true := fun hcon => hw (List.elem_iff.mp hcon)
    rw [if_neg hc]
    refine List.Nodup.append h (List.nodup_singleton w) ?_
    intro a ha hb
    rw [List.mem_singleton] at hb
    exact hw (hb ▸ ha)

theorem mem_foldl_setAdd :
    ∀ (l s : List String) (x : String),
      x ∈ l.foldl setAdd s ↔ x ∈ s ∨ x ∈ l := by
  intro l
  induction l with
  | nil => simp
  | cons a as ih =>
      intro s x
      rw [List.foldl_cons, ih, mem_setAdd]
      simp [or_assoc]

theorem nodup_foldl_setAdd :
    ∀ (l s : List String), s.Nodup → (l.foldl setAdd s).Nodup := by
  intro l
  induction l with
  | nil => intro s h; exact h
  | cons a as ih =>
      intro s h
      rw [List.foldl_cons]
      exact ih _ (nodup_setAdd s a h)

theorem sortStrings_sorted (l : List String) :
    List.Sorted (· ≤ ·) (sortStrings l) :=
  List.sorted_insertionSort _ l

theorem sortStrings_mem (l : List String) (x : String) :
    x ∈ sortStrings l ↔ x ∈ l :=
  (List.perm_insertionSort (fun a b => a ≤ b) l).mem_iff

theorem sortStrings_nodup (l : List String) (h : l.Nodup) :
    (sortStrings l).Nodup :=
  ((List.perm_insertionSort (fun a b => a ≤ b) l).nodup_iff).mpr h

/-! ## File discovery -/

/-- What one input path contributes to `discover_python_files`. -/
def discover_one (env : PathEnv) (path : List String) : List (List String) :=
  if env.isFile path && pathSuffix path == ".py" then [path]
  else if env.isDir path then
    (env.rglobPy path).filter
      (fun candidate => !(candidate.any startsWithDot))
  else []

theorem discover_python_files_eq_flatMap (env : PathEnv) :
    ∀ (paths : List (List String)) (acc : List (List String)),
      paths.foldl
          (fun python_files path =>
            if env.isFile path && pathSuffix path == ".py" then
              python_files ++ [path]
            else if env.isDir path then
              python_files ++
                (env.rglobPy path).filter
                  (fun candidate =>
                    !(candidate.any startsWithDot))
            else python_files)
          acc =
        acc ++ paths.flatMap (discover_one env) := by
  intro paths
  induction paths with
  | nil => intro acc; simp
  | cons p ps ih =>
      intro acc
      rw [List.foldl_cons, ih]
      unfold discover_one
      by_cases h1 : env.isFile p = true ∧ pathSuffix p = ".py"
      · simp [h1]
      · by_cases h2 : env.isDir p = true
        · simp [h1, h2]
        · simp [h1, h2]

/-- C5: the run exits with status 0 exactly when the violation list is
empty (discovering no files is a no-op success), and with status 1 when a
violation is recorded or a file fails to parse. -/
theorem exit_zero_iff_no_violations :
    (∀ (env : PathEnv) (stdlib : List String) (ce : Bool) (cd : ConfigData)
        (paths : List (List String)),
      CheckImportsScript.main env stdlib ce cd paths = 0 ↔
        (check_imports env stdlib (discover_python_files env paths)
            (ImportGuardConfig.from_path env ce cd)).violations = []) ∧
    (∀ (env : PathEnv) (stdlib : List String) (ce : Bool) (cd : ConfigData)
        (paths : List (List String)),
      discover_python_files env paths = [] →
        CheckImportsScript.main env stdlib ce cd paths = 0) ∧
    (∀ (env : PathEnv) (stdlib : List String) (ce : Bool) (cd : ConfigData)
        (paths : List (List String)) (f : List String) (msg : String),
      f ∈ discover_python_files env paths →
      env.parseFile f = .error msg →
        CheckImportsScript.main env stdlib ce cd paths = 1) := by
  refine ⟨?_, ?_, ?_⟩
  · intro env stdlib ce cd paths
    unfold CheckImportsScript.main
    by_cases hd : (discover_python_files env paths).isEmpty = true
    · rw [if_pos hd]
      rw [List.isEmpty_iff.mp hd, check_imports_violations]
      simp
    · rw [if_neg hd, check_imports_exitCode]
      by_cases hv : (check_imports env stdlib (discover_python_files env paths)
          (ImportGuardConfig.from_path env ce cd)).violations.isEmpty = true
      · rw [if_pos hv]
        simp [List.isEmpty_iff.mp hv]
      · rw [if_neg hv]
        have hne : (check_imports env stdlib (discover_python_files env paths)
            (ImportGuardConfig.from_path env ce cd)).violations ≠ [] := by
          intro he
          exact hv (by simp [he])
        exact iff_of_false (by norm_num) hne
  · intro env stdlib ce cd paths h
    unfold CheckImportsScript.main
    simp [h]
  · intro env stdlib ce cd paths f msg hf hp
    unfold CheckImportsScript.main
    have hd : ¬(discover_python_files env paths).isEmpty = true := by
      intro he
      rw [List.isEmpty_iff.mp he] at hf
      exact absurd hf (List.not_mem_nil f)
    rw [if_neg hd, check_imports_exitCode, check_imports_violations]
    have hmem : parse_failure_line f msg ∈
        (discover_python_files env paths).flatMap
          (file_violations env stdlib (ImportGuardConfig.from_path env ce cd)) := by
      apply List.mem_flatMap.mpr
      exact ⟨f, hf, by simp [file_violations, hp]⟩
    have hne : ¬((discover_python_files env paths).flatMap
        (file_violations env stdlib
          (ImportGuardConfig.from_path env ce cd))).isEmpty = true := by
      intro he
      rw [List.isEmpty_iff.mp he] at hmem
      exact absurd hmem (List.not_mem_nil _)
    rw [if_neg hne]

theorem exit_zero_iff_no_violations_witness :
    ["a.py"] ∈ discover_python_files envParseFail [["a.py"]] ∧
    envParseFail.parseFile ["a.py"] = .error "invalid syntax" ∧
    CheckImportsScript.main envParseFail [] false ⟨[], []⟩ [["a.py"]] = 1 ∧
    CheckImportsScript.main envParseFail [] false ⟨[], []⟩ [] = 0 :=
  ⟨by decide, rfl,
   exit_zero_iff_no_violations.2.2 envParseFail [] false ⟨[], []⟩ [["a.py"]]
     ["a.py"] "invalid syntax" (by decide) rfl,
   exit_zero_iff_no_violations.2.1 envParseFail [] false ⟨[], []⟩ [] (by decide)⟩

/-- C6: a file that fails to parse is recorded as the violation-class
entry `path: failed to parse (<message>)` at its position, every other
file in the batch is still fully scanned with its findings reported, and
the run's exit code is 1. -/
theorem parse_failure_recorded_scan_continues (env : PathEnv)
    (stdlib : List String) (config : ImportGuardConfig)
    (pre post : List (List String)) (badPath : List String) (msg : String)
    (h : env.parseFile badPath = .error msg) :
    (check_imports env stdlib (pre ++ badPath :: post) config).violations =
      pre.flatMap (file_violations env stdlib config) ++
        parse_failure_line badPath msg ::
          post.flatMap (file_violations env stdlib config) ∧
    (check_imports env stdlib (pre ++ badPath :: post) config).exitCode = 1 := by
  have hv : (check_imports env stdlib (pre ++ badPath :: post) config).violations =
      pre.flatMap (file_violations env stdlib config) ++
        parse_failure_line badPath msg ::
          post.flatMap (file_violations env stdlib config) := by
    rw [check_imports_violations, List.flatMap_append, List.flatMap_cons]
    simp [file_violations, h]
  refine ⟨hv, ?_⟩
  rw [check_imports_exitCode, hv]
  simp

theorem parse_failure_recorded_scan_continues_witness :
    envParseFail.parseFile ["bad.py"] = .error "invalid syntax" ∧
    ((check_imports envParseFail []
        ([["a.py"]] ++ ["bad.py"] :: [["c.py"]]) emptyConfig).violations =
      [["a.py"]].flatMap (file_violations envParseFail [] emptyConfig) ++
        parse_failure_line ["bad.py"] "invalid syntax" ::
          [["c.py"]].flatMap (file_violations envParseFail [] emptyConfig) ∧
     (check_imports envParseFail []
        ([["a.py"]] ++ ["bad.py"] :: [["c.py"]]) emptyConfig).exitCode = 1) :=
  ⟨rfl,
   parse_failure_recorded_scan_continues envParseFail [] emptyConfig
     [["a.py"]] [["c.py"]] ["bad.py"] "invalid syntax" rfl⟩

/-- C7 counterexample: the violation line has no colon after the line
number.  A file whose second line is `import kfp`, scanned with an empty
allow-list, yields `that_file:2 imports non-stdlib module 'kfp' at top
level`; the claimed line with a colon after the `2` is not in the
violation list. -/
theorem violation_line_colon_counterexample :
    (check_imports envKfp ["os"] [["that_file"]] emptyConfig).violations =
      ["that_file:2 imports non-stdlib module 'kfp' at top level"] ∧
    "that_file:2: imports non-stdlib module 'kfp' at top level" ∉
      (check_imports envKfp ["os"] [["that_file"]] emptyConfig).violations := by
  constructor
  · decide
  · decide

/-- C7 amended: each recorded violation for a parsable file is emitted in
exactly the form `path:line imports non-stdlib module 'name' at top
level` (a space, not a colon, after the line number); in particular a
file whose second line is `import kfp`, scanned with an empty allow-list,
yields exactly the violation line
`that_file:2 imports non-stdlib module 'kfp' at top level` and exit
code 1. -/
theorem violation_line_format_amended :
    (∀ (env : PathEnv) (stdlib : List String) (config : ImportGuardConfig)
        (fp : List String) (tree : PyAst),
      env.parseFile fp = .ok tree →
      ∀ v ∈ file_violations env stdlib config fp,
        ∃ imp ∈ extract_top_level_imports tree,
          v = pathToString fp ++ ":" ++ toString imp.2 ++
            " imports non-stdlib module '" ++ imp.1 ++ "' at top level") ∧
    ((check_imports envKfp ["os"] [["that_file"]] emptyConfig).violations =
        ["that_file:2 imports non-stdlib module 'kfp' at top level"] ∧
      (check_imports envKfp ["os"] [["that_file"]] emptyConfig).exitCode = 1) := by
  constructor
  · intro env stdlib config fp tree hp v hv
    simp only [file_violations, hp] at hv
    obtain ⟨imp, himp, heq⟩ := List.mem_filterMap.mp hv
    refine ⟨imp, himp, ?_⟩
    unfold import_violation at heq
    by_cases h1 : imp.1 ∈ stdlib
    · simp [h1] at heq
    · by_cases h2 : config.is_allowed env imp.1 fp = true
      · simp [h1, h2] at heq
      · simp [h1, h2] at heq
        rw [← heq]
        rfl
  · exact ⟨by decide, by decide⟩

theorem violation_line_format_amended_witness :
    envKfp.parseFile ["that_file"] = .ok kfpTree ∧
    "that_file:2 imports non-stdlib module 'kfp' at top level" ∈
      file_violations envKfp ["os"] emptyConfig ["that_file"] ∧
    (∃ imp ∈ extract_top_level_imports kfpTree,
      "that_file:2 imports non-stdlib module 'kfp' at top level" =
        pathToString ["that_file"] ++ ":" ++ toString imp.2 ++
          " imports non-stdlib module '" ++ imp.1 ++ "' at top level") :=
  ⟨rfl, by decide,
   violation_line_format_amended.1 envKfp ["os"] emptyConfig ["that_file"]
     kfpTree rfl _ (by decide)⟩

/-- C9: dependency warnings are accumulated with set semantics — the
printed warnings are duplicate-free and contain a message exactly when
some file generated it — printed in sorted order with a `WARNING:` prefix,
and a run with zero violations exits 0 irrespective of warnings. -/
theorem warnings_dedup_sorted_no_exit_effect (env : PathEnv)
    (stdlib : List String) (files : List (List String))
    (config : ImportGuardConfig) :
    (check_imports env stdlib files config).warnings.Nodup ∧
    List.Sorted (· ≤ ·) (check_imports env stdlib files config).warnings ∧
    (∀ w, w ∈ (check_imports env stdlib files config).warnings ↔
      w ∈ files.flatMap (file_warnings env stdlib config)) ∧
    warning_lines (check_imports env stdlib files config) =
      (check_imports env stdlib files config).warnings.map
        (fun w => "WARNING: " ++ w) ∧
    ((check_imports env stdlib files config).violations = [] →
      (check_imports env stdlib files config).exitCode = 0) := by
  refine ⟨?_, ?_, ?_, rfl, ?_⟩
  · rw [check_imports_warnings]
    exact sortStrings_nodup _ (nodup_foldl_setAdd _ _ List.nodup_nil)
  · rw [check_imports_warnings]
    exact sortStrings_sorted _
  · intro w
    rw [check_imports_warnings, sortStrings_mem, mem_foldl_setAdd]
    simp
  · intro h
    rw [check_imports_exitCode, h]
    rfl

theorem warnings_dedup_sorted_no_exit_effect_witness :
    (check_imports envWarn [] [["pkg", "a.py"], ["pkg", "b.py"]]
        ⟨["numpy"], []⟩).violations = [] ∧
    (check_imports envWarn [] [["pkg", "a.py"], ["pkg", "b.py"]]
        ⟨["numpy"], []⟩).warnings =
      ["pkg is missing a dev/test requirements file (dev-requirements.txt, test-requirements.txt)"] ∧
    (check_imports envWarn [] [["pkg", "a.py"], ["pkg", "b.py"]]
        ⟨["numpy"], []⟩).exitCode = 0 :=
  ⟨by decide, by decide,
   (warnings_dedup_sorted_no_exit_effect envWarn []
       [["pkg", "a.py"], ["pkg", "b.py"]] ⟨["numpy"], []⟩).2.2.2.2 (by decide)⟩

/-- C10: an input path that is an existing `.py` file is included by
`discover_python_files` unconditionally — hidden-component filtering is
applied only to candidates found by walking a directory input, so a
hidden file passed directly is still scanned. -/
theorem direct_file_inputs_bypass_hidden_filter :
    (∀ (env : PathEnv) (paths : List (List String)) (p : List String),
      p ∈ paths → env.isFile p = true → pathSuffix p = ".py" →
        p ∈ discover_python_files env paths) ∧
    (∀ (env : PathEnv) (d : List String),
      env.isFile d = false → env.isDir d = true →
        discover_python_files env [d] =
          (env.rglobPy d).filter
            (fun candidate =>
              !(candidate.any startsWithDot))) := by
  constructor
  · intro env paths p hp hf hs
    unfold discover_python_files
    rw [discover_python_files_eq_flatMap]
    rw [List.nil_append]
    apply List.mem_flatMap.mpr
    exact ⟨p, hp, by simp [discover_one, hf, hs]⟩
  · intro env d hf hd
    unfold discover_python_files
    rw [discover_python_files_eq_flatMap]
    simp [discover_one, hf, hd]

theorem direct_file_inputs_bypass_hidden_filter_witness :
    [".hidden", "x.py"] ∈ [[".hidden", "x.py"]] ∧
    envDisc.isFile [".hidden", "x.py"] = true ∧
    pathSuffix [".hidden", "x.py"] = ".py" ∧
    [".hidden", "x.py"] ∈ discover_python_files envDisc [[".hidden", "x.py"]] ∧
    envDisc.isFile ["d"] = false ∧
    envDisc.isDir ["d"] = true ∧
    discover_python_files envDisc [["d"]] = [["d", "a.py"]] := by
  refine ⟨by decide, by decide, by decide,
    direct_file_inputs_bypass_hidden_filter.1 envDisc [[".hidden", "x.py"]]
      [".hidden", "x.py"] (by decide) (by decide) (by decide),
    by decide, by decide, ?_⟩
  rw [direct_file_inputs_bypass_hidden_filter.2 envDisc ["d"]
    (by decide) (by decide)]
  decide
